import Mathlib

/-!
# Bug-tracker backend: embedding of the policy layer

A shallow embedding of the authorization, validation, dependency-guard and
session layers of the bug-tracker REST backend (controllers, services and
repositories), together with theorems settling the specification claims.

The relational store is modelled as four lists of rows (`DB`); the store's
foreign-key actions (CASCADE on Projects→Bugs and Bugs→Comments, SET NULL on
User references) follow `db/migration_add_cascade_deletes.sql`.  Request
bodies are records of optional fields, mirroring the JavaScript objects the
code destructures; JavaScript truthiness of a string/number field is modelled
by `truthyS` / `truthyN`.
-/

namespace BugTracker

/-- JavaScript truthiness of an optional string field: `undefined` and `""`
are falsy. -/
def truthyS : Option String → Bool
  | none => false
  | some s => s != ""

/-- JavaScript truthiness of an optional numeric field: `undefined` and `0`
are falsy. -/
def truthyN : Option Nat → Bool
  | none => false
  | some n => n != 0

/-- The whitespace characters recognised by the modelled `String.trim`. -/
def isWs (c : Char) : Bool := c == ' ' || c == '\t' || c == '\n' || c == '\r'

/-- ASCII lowercase table used to model JavaScript `toLowerCase`. -/
def lowerPairs : List (Char × Char) :=
  [('A','a'), ('B','b'), ('C','c'), ('D','d'), ('E','e'), ('F','f'), ('G','g'),
   ('H','h'), ('I','i'), ('J','j'), ('K','k'), ('L','l'), ('M','m'), ('N','n'),
   ('O','o'), ('P','p'), ('Q','q'), ('R','r'), ('S','s'), ('T','t'), ('U','u'),
   ('V','v'), ('W','w'), ('X','x'), ('Y','y'), ('Z','z')]

/-- Lowercase a single character (ASCII model of `toLowerCase`). -/
def lowerChar (c : Char) : Char :=
  match lowerPairs.find? (fun p => p.fst == c) with
  | some p => p.snd
  | none => c

/-- Model of JavaScript `s.toLowerCase()`. -/
def lowerStr (s : String) : String := ⟨s.data.map lowerChar⟩

/-- Trim from the front and from the back of a character list. -/
def trimList (l : List Char) : List Char :=
  ((l.dropWhile isWs).reverse.dropWhile isWs).reverse

/-- Model of JavaScript `s.trim()`. -/
def trimStr (s : String) : String := ⟨trimList s.data⟩

theorem isWs_lowerChar (c : Char) : isWs (lowerChar c) = isWs c := by
  unfold lowerChar
  cases h : lowerPairs.find? (fun p => p.fst == c) with
  | none => rfl
  | some p =>
    have hmem : p ∈ lowerPairs := List.mem_of_find?_eq_some h
    have hc : (p.fst == c) = true :=
      List.find?_some (p := fun (q : Char × Char) => q.fst == c) h
    have hc' : p.fst = c := by simpa using hc
    subst hc'
    fin_cases hmem <;> rfl

theorem map_lowerChar_dropWhile (l : List Char) :
    (l.map lowerChar).dropWhile isWs = (l.dropWhile isWs).map lowerChar := by
  induction l with
  | nil => rfl
  | cons a l ih =>
    simp only [List.map_cons, List.dropWhile_cons, isWs_lowerChar]
    cases h : isWs a with
    | true => simpa [h] using ih
    | false => simp [h]

/-- Lowercasing commutes with trimming: the registration path normalises
`email.trim().toLowerCase()` while the login path looks up
`email.toLowerCase().trim()`; both produce the same key. -/
theorem lowerStr_trimStr_comm (s : String) :
    trimStr (lowerStr s) = lowerStr (trimStr s) := by
  show String.mk (trimList (s.data.map lowerChar)) = String.mk ((trimList s.data).map lowerChar)
  unfold trimList
  rw [map_lowerChar_dropWhile, ← List.map_reverse, map_lowerChar_dropWhile, ← List.map_reverse]

/-- The regular expression test from the credential validator,
`^[^\s@]+@[^\s@]+\.[^\s@]+$`: exactly one `@`, no whitespace, a nonempty
local part and a domain containing a dot that is neither its first nor its
last character. -/
def emailTest (s : String) : Bool :=
  match s.data.splitOn '@' with
  | [loc, dom] =>
    !loc.isEmpty && loc.all (fun c => !isWs c) &&
    !dom.isEmpty && dom.all (fun c => !isWs c) &&
    ((dom.drop 1).dropLast.contains '.')
  | _ => false

/-! ## Data model (rows of the relational store) -/

/-- A row of the `Users` table. -/
structure UserRec where
  userid : Nat
  username : String
  email : String
  passwordhash : String
  role : String
  deriving Repr, DecidableEq

/-- A row of the `Projects` table; `createdby`/`assignedto` are nullable
(SET NULL on user delete). -/
structure ProjectRec where
  projectid : Nat
  projectname : String
  description : Option String
  createdby : Option Nat
  assignedto : Option Nat
  deriving Repr, DecidableEq

/-- A row of the `Bugs` table. -/
structure BugRec where
  bugid : Nat
  title : String
  description : Option String
  status : String
  priority : String
  projectid : Nat
  reportedby : Option Nat
  assignedto : Option Nat
  deriving Repr, DecidableEq

/-- A row of the `Comments` table. -/
structure CommentRec where
  commentid : Nat
  bugid : Nat
  userid : Nat
  commenttext : String
  deriving Repr, DecidableEq

/-- The relational store. -/
structure DB where
  users : List UserRec
  projects : List ProjectRec
  bugs : List BugRec
  comments : List CommentRec
  deriving Repr, DecidableEq

/-- The authenticated identity attached to a request by the middleware
(`req.user = \x7b userId, email, role \x7d`). -/
structure Actor where
  userId : Nat
  email : String := ""
  role : String
  deriving Repr, DecidableEq

/-! ## Repository layer (queries against the store) -/

/-- `UserRepository.getUserById`: `SELECT * FROM Users WHERE UserID = id`. -/
def getUserById (db : DB) (id : Nat) : Option UserRec :=
  db.users.find? (fun u => u.userid == id)

/-- `UserRepository.getUserByEmail`: exact-match lookup on the email column. -/
def getUserByEmail (db : DB) (e : String) : Option UserRec :=
  db.users.find? (fun u => u.email == e)

/-- `ProjectRepository.getProjectById`. -/
def getProjectById (db : DB) (id : Nat) : Option ProjectRec :=
  db.projects.find? (fun p => p.projectid == id)

/-- `BugRepository.getBugById`. -/
def getBugById (db : DB) (id : Nat) : Option BugRec :=
  db.bugs.find? (fun b => b.bugid == id)

/-- `UserRepository.getAllUsers`: `SELECT * FROM Users`; rows are returned as
stored (the `ORDER BY CreatedAt DESC` clause is abstracted away since row
timestamps are not modelled). -/
def repoGetAllUsers (db : DB) : List UserRec := db.users

/-- Modelled from the spec: `getBugCountByProject` is imported by
`deleteProjectController` from `bug.services` but implemented nowhere in the
repository (the import site is marked "Need to implement this"); §4.4 of the
spec says the guard for project deletion must count child Bugs. -/
def getBugCountByProject (db : DB) (pid : Nat) : Nat :=
  (db.bugs.filter (fun b => b.projectid == pid)).length

/-- Modelled from the spec: `getProjectCountByUser` is imported by
`deleteUserController` from `projects.services` but implemented nowhere in
the repository; §4.4 says user deletion must count Projects created-by. -/
def getProjectCountByUser (db : DB) (uid : Nat) : Nat :=
  (db.projects.filter (fun p => p.createdby == some uid)).length

/-- Modelled from the spec: `getBugCountByUser` is imported by
`deleteUserController` from `bug.services` but implemented nowhere in the
repository; §4.4 says user deletion must count Bugs assigned-to. -/
def getBugCountByUser (db : DB) (uid : Nat) : Nat :=
  (db.bugs.filter (fun b => b.assignedto == some uid)).length

/-- `CommentRepository` comment count for a bug (`getCommentCountByBug`). -/
def getCommentCountByBug (db : DB) (bid : Nat) : Nat :=
  (db.comments.filter (fun c => c.bugid == bid)).length

/-! ## Store mutations with foreign-key actions

Per `db/migration_add_cascade_deletes.sql`: `Bugs.projectid → Projects` is
ON DELETE CASCADE, `Comments.bugid → Bugs` is ON DELETE CASCADE, and the
user references `Bugs.reportedby/assignedto`, `Projects.createdby/assignedto`
are ON DELETE SET NULL. -/

/-- `DELETE FROM Projects WHERE ProjectID = pid` with the store's CASCADE:
child bugs and, transitively, their comments are removed atomically. -/
def deleteProjectCascade (db : DB) (pid : Nat) : DB :=
  let doomedBugs := (db.bugs.filter (fun b => b.projectid == pid)).map (fun b => b.bugid)
  { db with
    projects := db.projects.filter (fun p => p.projectid != pid)
    bugs := db.bugs.filter (fun b => b.projectid != pid)
    comments := db.comments.filter (fun c => !(doomedBugs.contains c.bugid)) }

/-- `DELETE FROM Bugs WHERE BugID = bid` with CASCADE on its comments. -/
def deleteBugCascade (db : DB) (bid : Nat) : DB :=
  { db with
    bugs := db.bugs.filter (fun b => b.bugid != bid)
    comments := db.comments.filter (fun c => c.bugid != bid) }

/-- `DELETE FROM Users WHERE UserID = uid` with SET NULL on the user
references held by projects and bugs. -/
def deleteUserRow (db : DB) (uid : Nat) : DB :=
  { db with
    users := db.users.filter (fun u => u.userid != uid)
    projects := db.projects.map (fun p =>
      { p with
        createdby := if p.createdby == some uid then none else p.createdby
        assignedto := if p.assignedto == some uid then none else p.assignedto })
    bugs := db.bugs.map (fun b =>
      { b with
        reportedby := if b.reportedby == some uid then none else b.reportedby
        assignedto := if b.assignedto == some uid then none else b.assignedto }) }

/-! ## Controller responses -/

/-- HTTP-level outcome of a controller call.  `conflict` carries the
dependency counts included in the 409 payload (empty when the 409 comes from
an `AppError` of type CONFLICT, which carries only a message). -/
inductive Resp (α : Type) where
  | ok (a : α)
  | created (a : α)
  | badRequest (msg : String)
  | unauthorized (msg : String)
  | forbidden
  | notFound
  | conflict (info : List Nat)
  | serverError (msg : String)
  deriving Repr, DecidableEq

/-- Typed service-layer failure: `AppError(CONFLICT)` versus a plain
`Error`, which `handleControllerError` maps to 409 and 500 respectively. -/
inductive SvcErr where
  | conflictErr (msg : String)
  | plainErr (msg : String)
  deriving Repr, DecidableEq

/-! ## Project validation, service and controllers
(`projects.services.ts`, `project.controller.ts`) -/

/-- Raw body of a project update request; `Description` distinguishes
absent (`none`) from explicit `null` (`some none`). -/
structure UpdateProjectBody where
  ProjectName : Option String := none
  Description : Option (Option String) := none
  deriving Repr, DecidableEq

/-- Sanitized partial update produced by `validateUpdateProjectData`. -/
structure UpdateProjectParsed where
  ProjectName : Option String := none
  Description : Option (Option String) := none
  deriving Repr, DecidableEq

/-- `validateUpdateProjectData` (projects.services.ts:54-76): trims
`ProjectName` when present, maps a falsy `Description` to `null`, and fails
when no field is provided. -/
def validateUpdateProjectData (data : UpdateProjectBody) : Except String UpdateProjectParsed :=
  if data.ProjectName == none && data.Description == none then
    .error "No valid fields to update"
  else
    .ok { ProjectName := data.ProjectName.map trimStr
          Description := data.Description.map (fun d =>
            match d with
            | some s => if s != "" then some (trimStr s) else none
            | none => none) }

/-- `ProjectRepository.updateProject`: includes `ProjectName` only when
truthy, `Description` whenever it was provided (possibly `null`); with no
SET clause it raises; otherwise rewrites the matching row. -/
def repoUpdateProject (db : DB) (pid : Nat) (d : UpdateProjectParsed) :
    Except String (Option ProjectRec × DB) :=
  let hasName := truthyS d.ProjectName
  let hasDesc := d.Description.isSome
  if !hasName && !hasDesc then
    .error "No fields to update"
  else
    match getProjectById db pid with
    | none => .ok (none, db)
    | some p =>
      let p' := { p with
        projectname := if hasName then d.ProjectName.getD p.projectname else p.projectname
        description := if hasDesc then d.Description.getD p.description else p.description }
      .ok (some p', { db with
        projects := db.projects.map (fun q => if q.projectid == pid then p' else q) })

/-- `updateProject` service (projects.services.ts:175-186): rejects a falsy
project id, validates, then updates. -/
def updateProjectService (pid : Nat) (data : UpdateProjectBody) (db : DB) :
    Except String (Option ProjectRec × DB) :=
  if pid == 0 then .error "Valid project ID is required"
  else
    match validateUpdateProjectData data with
    | .error e => .error e
    | .ok d => repoUpdateProject db pid d

/-- `PUT /projects/:id` (`updateProjectController`, project.controller.ts:
137-166): 404 when the project is missing, 403 unless the actor is an Admin
or the project's creator, then the service update; service errors are plain
`Error`s, mapped to 500 by `handleControllerError`. -/
def updateProjectController (actor : Actor) (pid : Nat) (body : UpdateProjectBody)
    (db : DB) : Resp (Option ProjectRec) × DB :=
  if pid == 0 then (.serverError "Valid project ID is required", db)
  else
  match getProjectById db pid with
  | none => (.notFound, db)
  | some existing =>
    if actor.role != "Admin" && existing.createdby != some actor.userId then
      (.forbidden, db)
    else
      match updateProjectService pid body db with
      | .error e => (.serverError e, db)
      | .ok (p?, db') => (.ok p?, db')

/-- A request body carrying the `force` confirmation flag. -/
structure ForceBody where
  force : Bool := false
  deriving Repr, DecidableEq

/-- `DELETE /projects/:id` (`deleteProjectController`, project.controller.ts:
180-212): 404 when missing; the source contains no permission gate here (its
inline comment reads "No permission check - allow all authenticated users
for testing"); the dependency guard fires only when the request has no body
at all (`bugCount > 0 && !req.body`); otherwise the delete cascades. -/
def deleteProjectController (actor : Actor) (pid : Nat) (body : Option ForceBody)
    (db : DB) : Resp Unit × DB :=
  if pid == 0 then (.serverError "Valid project ID is required", db)
  else
  match getProjectById db pid with
  | none => (.notFound, db)
  | some _ =>
    let bugCount := getBugCountByProject db pid
    if bugCount > 0 && body == none then
      (.conflict [bugCount], db)
    else
      (.ok (), deleteProjectCascade db pid)

/-! ## Bug validation, service and controllers
(`bug.services.ts` validators at lines 303-386, `bug.controller.ts`
controllers at lines 285-369, `bugs.repositories.ts`) -/

/-- The closed status enumeration named by the spec. -/
def validStatuses : List String := ["Open", "In Progress", "Resolved", "Closed"]

/-- The closed priority enumeration named by the spec. -/
def validPriorities : List String := ["Low", "Medium", "High", "Critical"]

/-- Raw body of a bug create request. -/
structure CreateBugBody where
  Title : Option String := none
  Description : Option String := none
  Status : Option String := none
  Priority : Option String := none
  ProjectID : Option Nat := none
  ReportedBy : Option Nat := none
  AssignedTo : Option Nat := none
  deriving Repr, DecidableEq

/-- Sanitized create payload produced by `validateCreateBugData`. -/
structure CreateBugParsed where
  Title : String
  Description : Option String
  Status : String
  Priority : String
  ProjectID : Nat
  ReportedBy : Option Nat
  AssignedTo : Option Nat
  deriving Repr, DecidableEq

/-- `x || d` for an optional string field. -/
def jsOrS (o : Option String) (d : String) : String :=
  match o with
  | some s => if s != "" then s else d
  | none => d

/-- `x || undefined` for an optional numeric field. -/
def jsOrN (o : Option Nat) : Option Nat :=
  match o with
  | some n => if n != 0 then some n else none
  | none => none

/-- `validateCreateBugData` (bug.services.ts:303-324): requires a truthy
`Title` and `ProjectID`, trims strings, applies the defaults
`Status || 'Open'` and `Priority || 'Medium'`.  It performs no membership
check of `Status`/`Priority` against the closed enumerations and no
existence check of the project. -/
def validateCreateBugData (data : CreateBugBody) : Except String CreateBugParsed :=
  if !truthyS data.Title then
    .error "Title is required and must be a string"
  else if !truthyN data.ProjectID then
    .error "ProjectID is required and must be a number"
  else
    .ok { Title := trimStr (data.Title.getD "")
          Description := match data.Description with
            | some s => if s != "" then some (trimStr s) else none
            | none => none
          Status := jsOrS data.Status "Open"
          Priority := jsOrS data.Priority "Medium"
          ProjectID := data.ProjectID.getD 0
          ReportedBy := jsOrN data.ReportedBy
          AssignedTo := jsOrN data.AssignedTo }

/-- A fresh primary key for an insert. -/
def freshId (ids : List Nat) : Nat := ids.foldr Nat.max 0 + 1

/-- `BugRepository.createBug`: inserts the row (re-applying the
`|| 'Open'` / `|| 'Medium'` defaults as the SQL parameters do); the store's
foreign-key constraint on `projectid` rejects a dangling reference. -/
def repoCreateBug (db : DB) (d : CreateBugParsed) : Except SvcErr (BugRec × DB) :=
  if (getProjectById db d.ProjectID).isNone then
    .error (.plainErr "foreign key violation: Bugs.projectid")
  else
    let row : BugRec :=
      { bugid := freshId (db.bugs.map (fun b => b.bugid))
        title := d.Title
        description := d.Description
        status := jsOrS (some d.Status) "Open"
        priority := jsOrS (some d.Priority) "Medium"
        projectid := d.ProjectID
        reportedby := d.ReportedBy
        assignedto := d.AssignedTo }
    .ok (row, { db with bugs := db.bugs ++ [row] })

/-- `createBug` service (bug.services.ts:529-537): validate then insert. -/
def createBugService (data : CreateBugBody) (db : DB) : Except SvcErr (BugRec × DB) :=
  match validateCreateBugData data with
  | .error e => .error (.plainErr e)
  | .ok d => repoCreateBug db d

/-- Raw body of a bug update request; `Description` and `AssignedTo`
distinguish absent from explicit `null`. -/
structure UpdateBugBody where
  Title : Option String := none
  Description : Option (Option String) := none
  Status : Option String := none
  Priority : Option String := none
  AssignedTo : Option (Option Nat) := none
  deriving Repr, DecidableEq

/-- Sanitized partial update produced by `validateUpdateBugData`. -/
structure UpdateBugParsed where
  Title : Option String := none
  Description : Option (Option String) := none
  Status : Option String := none
  Priority : Option String := none
  AssignedTo : Option (Option Nat) := none
  deriving Repr, DecidableEq

/-- `validateUpdateBugData` (bug.services.ts:340-386): every provided field
must be of the right type (always satisfied in this typed model); `Status`
and `Priority` are copied verbatim with no membership check against the
closed enumerations; fails when no field is provided. -/
def validateUpdateBugData (data : UpdateBugBody) : Except String UpdateBugParsed :=
  if data.Title == none && data.Description == none && data.Status == none &&
      data.Priority == none && data.AssignedTo == none then
    .error "No valid fields to update"
  else
    .ok { Title := data.Title.map trimStr
          Description := data.Description.map (fun v =>
            match v with
            | some s => if s != "" then some (trimStr s) else none
            | none => none)
          Status := data.Status
          Priority := data.Priority
          AssignedTo := data.AssignedTo }

/-- `BugRepository.updateBug`: builds the SET clause from truthy `Title`,
`Status`, `Priority` and provided `Description`/`AssignedTo`; raises with an
empty SET clause; otherwise rewrites the matching row. -/
def repoUpdateBug (db : DB) (bid : Nat) (d : UpdateBugParsed) :
    Except String (Option BugRec × DB) :=
  let hasTitle := truthyS d.Title
  let hasDesc := d.Description.isSome
  let hasStatus := truthyS d.Status
  let hasPrio := truthyS d.Priority
  let hasAssigned := d.AssignedTo.isSome
  if !hasTitle && !hasDesc && !hasStatus && !hasPrio && !hasAssigned then
    .error "No fields to update"
  else
    match getBugById db bid with
    | none => .ok (none, db)
    | some b =>
      let b' := { b with
        title := if hasTitle then d.Title.getD b.title else b.title
        description := if hasDesc then d.Description.getD b.description else b.description
        status := if hasStatus then d.Status.getD b.status else b.status
        priority := if hasPrio then d.Priority.getD b.priority else b.priority
        assignedto := if hasAssigned then d.AssignedTo.getD b.assignedto else b.assignedto }
      .ok (some b', { db with
        bugs := db.bugs.map (fun q => if q.bugid == bid then b' else q) })

/-- `updateBug` service (bug.services.ts:551-562). -/
def updateBugService (bid : Nat) (data : UpdateBugBody) (db : DB) :
    Except String (Option BugRec × DB) :=
  if bid == 0 then .error "Valid bug ID is required"
  else
    match validateUpdateBugData data with
    | .error e => .error e
    | .ok d => repoUpdateBug db bid d

/-- `PUT /bugs/:id` (`updateBugController`, bug.controller.ts:285-317):
404 when the bug is missing; 403 unless the actor is an Admin, the bug's
reporter, or its assignee; then the service update. -/
def updateBugController (actor : Actor) (bid : Nat) (body : UpdateBugBody)
    (db : DB) : Resp (Option BugRec) × DB :=
  if bid == 0 then (.serverError "Valid bug ID is required", db)
  else
  match getBugById db bid with
  | none => (.notFound, db)
  | some existing =>
    if actor.role != "Admin" && existing.reportedby != some actor.userId &&
        existing.assignedto != some actor.userId then
      (.forbidden, db)
    else
      match updateBugService bid body db with
      | .error e => (.serverError e, db)
      | .ok (b?, db') => (.ok b?, db')

/-- `DELETE /bugs/:id` (`deleteBugController`, bug.controller.ts:331-369):
404 when the bug is missing; the permission gate tests only
`user.userId !== existingBug.reportedby && user.userId !== existingBug.assignedto`
with no role clause, although the adjacent comment and the 403 message name
administrators; the comment-count guard fires unless the body carries a
truthy `force`; then the delete cascades over comments. -/
def deleteBugController (actor : Actor) (bid : Nat) (body : Option ForceBody)
    (db : DB) : Resp Unit × DB :=
  if bid == 0 then (.serverError "Valid bug ID is required", db)
  else
  match getBugById db bid with
  | none => (.notFound, db)
  | some existing =>
    if existing.reportedby != some actor.userId &&
        existing.assignedto != some actor.userId then
      (.forbidden, db)
    else
      let commentCount := getCommentCountByBug db bid
      if commentCount > 0 && !(match body with | some b => b.force | none => false) then
        (.conflict [commentCount], db)
      else
        (.ok (), deleteBugCascade db bid)

/-! ## Users, credentials and sessions
(`user.services` in `unnamed/part_026`, `user.controller.ts`,
`auth.middleware.ts`, `user.repositories.ts`) -/

/-- The external password-hashing primitive (bcrypt), given by its contract:
comparison succeeds exactly on the hashed plaintext. -/
structure HashPrimitive where
  hash : String → String
  compare : String → String → Bool
  compare_hash_self : ∀ p, compare p (hash p) = true
  compare_hash_of_ne : ∀ p q, q ≠ p → compare q (hash p) = false

/-- A concrete instance of the hashing contract used to evaluate the model
on closed inputs. -/
def idHash : HashPrimitive where
  hash := fun p => p
  compare := fun q h => q == h
  compare_hash_self := fun p => by simp
  compare_hash_of_ne := fun p q hqp => by simpa using hqp

/-- A user record with the password hash stripped, as returned by login,
registration and the profile endpoints. -/
structure PublicUser where
  userid : Nat
  username : String
  email : String
  role : String
  deriving Repr, DecidableEq

/-- `const (pass, ...rest) = user` : strip the password hash. -/
def toPublic (u : UserRec) : PublicUser :=
  { userid := u.userid, username := u.username, email := u.email, role := u.role }

/-- Raw registration body. -/
structure RegisterBody where
  username : Option String := none
  email : Option String := none
  password : Option String := none
  role : Option String := none
  deriving Repr, DecidableEq

/-- Parsed credentials produced by `validateAndParseCredentials`. -/
structure CreateUserData where
  Username : String
  Email : String
  PasswordHash : String
  Role : String
  deriving Repr, DecidableEq

/-- `validateAndParseCredentials` (part_026:23-53): requires truthy
username/email/password, trims the username, normalises the email with
`trim` then `toLowerCase` and tests it against the pattern, requires a
password of length at least 8, hashes the password, and defaults the role
to `"User"` when absent or falsy. -/
def validateAndParseCredentials (hp : HashPrimitive) (body : RegisterBody) :
    Except String CreateUserData :=
  match body.username, body.email, body.password with
  | some un, some em, some pw =>
    if un == "" || em == "" || pw == "" then
      .error "Missing credentials, please fully fill credentials required"
    else
      let te := lowerStr (trimStr em)
      if !emailTest te then .error "Invalid email format"
      else if pw.length < 8 then .error "Password must be at least 8 characters"
      else .ok { Username := trimStr un
                 Email := te
                 PasswordHash := hp.hash pw
                 Role := match body.role with
                   | some r => if r != "" then r else "User"
                   | none => "User" }
  | _, _, _ => .error "Missing credentials, please fully fill credentials required"

/-- The row inserted by `UserRepository.createUser` for the parsed
credentials `nu` (its primary key generated by the store). -/
def mkRow (db : DB) (nu : CreateUserData) : UserRec :=
  { userid := freshId (db.users.map (fun u => u.userid))
    username := nu.Username
    email := nu.Email
    passwordhash := nu.PasswordHash
    role := nu.Role }

/-- `createUser` service (part_026:55-73): validate, refuse a duplicate
email, insert, and return the created row without its hash. -/
def createUserService (hp : HashPrimitive) (body : RegisterBody) (db : DB) :
    Except String (PublicUser × DB) :=
  match validateAndParseCredentials hp body with
  | .error e => .error e
  | .ok nu =>
    match getUserByEmail db nu.Email with
    | some _ => .error "User with this email already exists"
    | none => .ok (toPublic (mkRow db nu), { db with users := db.users ++ [mkRow db nu] })

/-- The claims a session token carries. -/
structure TokenClaims where
  userId : Nat
  email : String
  role : String
  deriving Repr, DecidableEq

/-- A signed session token: its claims plus its expiry instant (issuance
time + 24 hours). -/
structure SessionToken where
  claims : TokenClaims
  exp : Nat
  deriving Repr, DecidableEq

/-- `loginUser` (part_026:76-110): requires truthy email and password,
looks the user up by `email.toLowerCase().trim()`, compares the password
against the stored hash — both failures produce the same generic error —
and on success signs a token with a 24-hour expiry and returns the user
without its hash. -/
def loginUserService (hp : HashPrimitive) (now : Nat) (email password : Option String)
    (db : DB) : Except String (SessionToken × PublicUser) :=
  if !truthyS email || !truthyS password then
    .error "Email and password are required"
  else
    let em := email.getD ""
    let pw := password.getD ""
    match getUserByEmail db (trimStr (lowerStr em)) with
    | none => .error "Invalid email or password"
    | some u =>
      if !hp.compare pw u.passwordhash then
        .error "Invalid email or password"
      else
        .ok ({ claims := { userId := u.userid, email := u.email, role := u.role }
               exp := now + 86400 }, toPublic u)

/-- Outcome of the authentication middleware. -/
inductive AuthResult where
  | ok (a : Actor)
  | missingToken
  | expired
  | userGone
  deriving Repr, DecidableEq

/-- `authenticateToken` (auth.middleware.ts:19-56): 401 without a token;
`jwt.verify` rejects an expired token; the decoded user id must still exist
in the store ("User no longer exists"); otherwise the actor is resolved
from the token's claims. -/
def authenticateToken (now : Nat) (tok : Option SessionToken) (db : DB) : AuthResult :=
  match tok with
  | none => .missingToken
  | some t =>
    if t.exp ≤ now then .expired
    else
      match getUserById db t.claims.userId with
      | none => .userGone
      | some _ =>
        .ok { userId := t.claims.userId, email := t.claims.email, role := t.claims.role }

/-- `getAllUsers` service (part_026:12-14): returns the repository rows as
they are, with no field stripped. -/
def getAllUsersService (db : DB) : List UserRec := repoGetAllUsers db

/-- `getUserProfile` (part_026:137-146): looks the user up and strips the
password hash. -/
def getUserProfileService (uid : Nat) (db : DB) : Except String PublicUser :=
  match getUserById db uid with
  | none => .error "User not found"
  | some u => .ok (toPublic u)

/-- Raw body of a profile update request (the controller reads only
`username`, `email` and `role` from it). -/
structure UpdateUserBody where
  username : Option String := none
  email : Option String := none
  role : Option String := none
  deriving Repr, DecidableEq

/-- The `UpdateUser` record passed from the service to the repository. -/
structure UpdateUserData where
  Username : Option String := none
  Email : Option String := none
  PasswordHash : Option String := none
  Role : Option String := none
  deriving Repr, DecidableEq

/-- `UserRepository.updateUser` (user.repositories.ts:54-98): each field
joins the SET clause only when truthy; an empty SET clause raises
`No fields to update`; otherwise the matching row is rewritten. -/
def repoUpdateUser (db : DB) (uid : Nat) (d : UpdateUserData) :
    Except String (Option UserRec × DB) :=
  let hasU := truthyS d.Username
  let hasE := truthyS d.Email
  let hasP := truthyS d.PasswordHash
  let hasR := truthyS d.Role
  if !hasU && !hasE && !hasP && !hasR then
    .error "No fields to update"
  else
    match getUserById db uid with
    | none => .ok (none, db)
    | some u =>
      let u' := { u with
        username := if hasU then d.Username.getD u.username else u.username
        email := if hasE then d.Email.getD u.email else u.email
        passwordhash := if hasP then d.PasswordHash.getD u.passwordhash else u.passwordhash
        role := if hasR then d.Role.getD u.role else u.role }
      .ok (some u', { db with
        users := db.users.map (fun q => if q.userid == uid then u' else q) })

/-- `updateUserProfile` (part_026:149-203): requires the user to exist;
validates a provided username (non-empty after trim), email (normalised,
pattern-tested, not taken by another user) and role (any string is accepted
unchanged — there is no authorization check and no restriction on its
value); refuses a provided password hash; fails when nothing validated;
then updates and strips the hash. -/
def updateUserProfileService (uid : Nat) (d : UpdateUserData) (db : DB) :
    Except String (PublicUser × DB) :=
  if (getUserById db uid).isNone then .error "User not found"
  else
    match (match d.Username with
           | some s => if trimStr s == "" then .error "Invalid username"
                       else .ok (some (trimStr s))
           | none => .ok none : Except String (Option String)) with
    | .error e => .error e
    | .ok vU =>
      match (match d.Email with
             | some s =>
               let e := lowerStr (trimStr s)
               if !emailTest e then .error "Invalid email format"
               else
                 match getUserByEmail db e with
                 | some other =>
                   if other.userid != uid then .error "Email is already taken"
                   else .ok (some e)
                 | none => .ok (some e)
             | none => .ok none : Except String (Option String)) with
      | .error e => .error e
      | .ok vE =>
        let vR : Option String := d.Role
        if d.PasswordHash.isSome then
          .error "Password cannot be updated via profile update"
        else if vU == none && vE == none && vR == none then
          .error "No valid fields to update"
        else
          match repoUpdateUser db uid
              { Username := vU, Email := vE, PasswordHash := none, Role := vR } with
          | .error e => .error e
          | .ok (none, _) => .error "Failed to update user"
          | .ok (some u, db') => .ok (toPublic u, db')

/-- `PUT /users/profile` (`updateUserProfileController`,
user.controller.ts:69-91): 401 without an authenticated id; the update data
passed down carries only `username`, `email` and `role` from the body; all
service failures are plain `Error`s, mapped to 500. -/
def updateUserProfileController (uid : Nat) (body : UpdateUserBody) (db : DB) :
    Resp PublicUser × DB :=
  if uid == 0 then (.unauthorized "Unauthorized", db)
  else
    match updateUserProfileService uid
        { Username := body.username, Email := body.email,
          PasswordHash := none, Role := body.role } db with
    | .error e => (.serverError e, db)
    | .ok (pu, db') => (.ok pu, db')

/-- `deleteUser` service (part_026:113-134): requires the user to exist,
then refuses with `AppError(CONFLICT)` when the user has created projects,
is assigned to bugs, or has authored comments — in that order, before any
row is touched; only then deletes the row (SET NULL on references). -/
def deleteUserService (uid : Nat) (db : DB) : Except SvcErr DB :=
  if (getUserById db uid).isNone then .error (.plainErr "User not found")
  else if (db.projects.filter (fun p => p.createdby == some uid)).length > 0 then
    .error (.conflictErr "Cannot delete user who has created projects")
  else if (db.bugs.filter (fun b => b.assignedto == some uid)).length > 0 then
    .error (.conflictErr "Cannot delete user who is assigned to bugs")
  else if (db.comments.filter (fun c => c.userid == uid)).length > 0 then
    .error (.conflictErr "Cannot delete user who has comments")
  else .ok (deleteUserRow db uid)

/-- `DELETE /users/:id` (`deleteUserController`, user.controller.ts:
109-137): 400 on a falsy id; 403 unless the actor deletes their own account
or is an Admin; a 409 carrying the project and bug counts when dependents
exist and `force` is not set; otherwise the service delete, whose
`AppError(CONFLICT)` is mapped to 409 by `handleControllerError`. -/
def deleteUserController (actor : Actor) (uid : Nat) (body : ForceBody) (db : DB) :
    Resp Unit × DB :=
  if uid == 0 then (.badRequest "Invalid user ID", db)
  else if actor.userId != uid && actor.role != "Admin" then (.forbidden, db)
  else
    let projectCount := getProjectCountByUser db uid
    let bugCount := getBugCountByUser db uid
    if (projectCount > 0 || bugCount > 0) && !body.force then
      (.conflict [projectCount, bugCount], db)
    else
      match deleteUserService uid db with
      | .error (.conflictErr _) => (.conflict [], db)
      | .error (.plainErr e) => (.serverError e, db)
      | .ok db' => (.ok (), db')

/-! ## Comment update
(`comments.services.ts` revision at lines 615-633 with its validator at
lines 527-537, `comments.repositories.ts`)

The raw body is modelled as an association list of string fields so that
`Object.keys(commentData).length` and unrecognised keys are representable.
The validator of this service revision writes the lowercase key
`commenttext`, while the repository reads the property `CommentText`; both
fields are carried so the mismatch present in the source is preserved. -/

/-- `body.k` on a JavaScript object modelled as an association list. -/
def lookupKey (body : List (String × String)) (k : String) : Option String :=
  (body.find? (fun kv => kv.fst == k)).map (fun kv => kv.snd)

/-- The object passed from the comment validator to the repository. -/
structure ParsedCommentUpdate where
  commenttext : Option String := none
  CommentText : Option String := none
  deriving Repr, DecidableEq

/-- `validateAndParseUpdateCommentData` (comments.services.ts:527-537):
errors when `commenttext` is present but empty after trim; otherwise
returns an object whose only (lowercase) field is the trimmed text, or
`undefined` when the key was absent. -/
def validateAndParseUpdateCommentData (body : List (String × String)) :
    Except String ParsedCommentUpdate :=
  match lookupKey body "commenttext" with
  | some s =>
    if trimStr s == "" then .error "Invalid CommentText: Must be non-empty string"
    else .ok { commenttext := some (trimStr s) }
  | none => .ok { }

/-- `CommentRepository.updateComment` (comments.repositories.ts:109-142):
requires a truthy `CommentText` property — the uppercase key, which the
validator above never sets — then rewrites the text of the matching row. -/
def repoUpdateComment (db : DB) (cid : Nat) (d : ParsedCommentUpdate) :
    Except String (Option CommentRec × DB) :=
  if !truthyS d.CommentText then .error "Comment text is required for update"
  else
    match db.comments.find? (fun c => c.commentid == cid) with
    | none => .ok (none, db)
    | some c =>
      let c' := { c with commenttext := d.CommentText.getD c.commenttext }
      .ok (some c', { db with
        comments := db.comments.map (fun q => if q.commentid == cid then c' else q) })

/-- `updateComment` service (comments.services.ts:615-633): an empty body
(`Object.keys(commentData).length === 0`) fails with
`No update data provided`; otherwise the validator runs, then the
repository. -/
def updateCommentService (cid : Nat) (body : List (String × String)) (db : DB) :
    Except String (Option CommentRec) × DB :=
  if body.isEmpty then (.error "No update data provided", db)
  else
    match validateAndParseUpdateCommentData body with
    | .error e => (.error e, db)
    | .ok d =>
      match repoUpdateComment db cid d with
      | .error e => (.error e, db)
      | .ok (c?, db') => (.ok c?, db')

/-! ## Fixtures used to evaluate the model on concrete requests -/

/-- An empty store. -/
def emptyDB : DB := { users := [], projects := [], bugs := [], comments := [] }

/-- A project created by user 1. -/
def projC1 : ProjectRec :=
  { projectid := 1, projectname := "P1", description := none
    createdby := some 1, assignedto := none }

/-- A store holding only `projC1`. -/
def dbC1 : DB := { emptyDB with projects := [projC1] }

/-- A non-admin actor who is not the creator of `projC1`. -/
def actorC1 : Actor := { userId := 2, role := "User" }

/-- C1: update/delete of a project is claimed to be permitted exactly for an
Admin or the project's creator, anything else yielding 403 with the project
unchanged.  The update controller does enforce this: actor 2 (role "User",
not the creator) is refused.  But the delete controller contains no
permission gate at all — the same actor deletes the project outright — so
the claim fails on the delete half, against the controller's own doc
comment ("restricted to administrators or project creators"). -/
theorem c1_project_delete_has_no_permission_gate :
    (updateProjectController actorC1 1 { } dbC1).fst = .forbidden ∧
    (updateProjectController actorC1 1 { } dbC1).snd = dbC1 ∧
    actorC1.role ≠ "Admin" ∧ projC1.createdby ≠ some actorC1.userId ∧
    deleteProjectController actorC1 1 (some { force := false }) dbC1 =
      (.ok (), { dbC1 with projects := [] }) := by
  decide

/-- A bug reported by user 5 and assigned to user 7. -/
def bugC2 : BugRec :=
  { bugid := 1, title := "T", description := none, status := "Open"
    priority := "Medium", projectid := 1, reportedby := some 5, assignedto := some 7 }

/-- A store holding only `bugC2` (and its project). -/
def dbC2 : DB := { emptyDB with projects := [projC1], bugs := [bugC2] }

/-- An administrator who is neither the reporter nor the assignee. -/
def adminC2 : Actor := { userId := 99, role := "Admin" }

/-- C2: update/delete of a bug is claimed to be permitted exactly for an
Admin, the reporter, or the assignee.  The update controller enforces this
(the Admin is not refused), but the delete controller's gate omits the role
clause — it tests only reporter/assignee — so the same Admin receives 403 on
delete, contradicting the gate's own comment and 403 message, which both
name administrators. -/
theorem c2_bug_delete_refuses_admin :
    adminC2.role = "Admin" ∧
    bugC2.reportedby ≠ some adminC2.userId ∧ bugC2.assignedto ≠ some adminC2.userId ∧
    (updateBugController adminC2 1 { Status := some "Closed" } dbC2).fst ≠ .forbidden ∧
    deleteBugController adminC2 1 (some { force := true }) dbC2 = (.forbidden, dbC2) := by
  decide

/-- Three bugs of project 1, two of them commented. -/
def dbC3 : DB :=
  { users := []
    projects := [projC1]
    bugs :=
      [{ bugid := 1, title := "B1", description := none, status := "Open"
         priority := "Medium", projectid := 1, reportedby := some 1, assignedto := none },
       { bugid := 2, title := "B2", description := none, status := "Open"
         priority := "Medium", projectid := 1, reportedby := some 1, assignedto := none },
       { bugid := 3, title := "B3", description := none, status := "Open"
         priority := "Medium", projectid := 1, reportedby := some 1, assignedto := none }]
    comments :=
      [{ commentid := 1, bugid := 1, userid := 1, commenttext := "a" },
       { commentid := 2, bugid := 2, userid := 1, commenttext := "b" }] }

/-- C3: deleting a project with dependent bugs is claimed to 409 unless the
caller passes an explicit `force=true`.  The guard actually tests only
`bugCount > 0 && !req.body`: a request whose body is present but carries
`force:false` (or no `force` key — any parsed JSON body) cascades the delete
of the project, its 3 bugs and their comments, although the controller's own
409 message instructs the caller to add `force:true` to confirm.  Only a
request with no body at all receives the 409 with the bug count. -/
theorem c3_force_flag_is_not_consulted :
    getBugCountByProject dbC3 1 = 3 ∧
    deleteProjectController actorC1 1 (some { force := false }) dbC3 =
      (.ok (), { dbC3 with projects := [], bugs := [], comments := [] }) ∧
    deleteProjectController actorC1 1 none dbC3 = (.conflict [3], dbC3) := by
  decide

/-- If the user exists and has a dependent row (a created project, an
assigned bug, or an authored comment), `deleteUser` refuses with
`AppError(CONFLICT)` before deleting anything. -/
theorem deleteUserService_conflict_of_dep (db : DB) (uid : Nat)
    (hex : (getUserById db uid).isSome)
    (hdep : 0 < (db.projects.filter (fun p => p.createdby == some uid)).length
          ∨ 0 < (db.bugs.filter (fun b => b.assignedto == some uid)).length
          ∨ 0 < (db.comments.filter (fun c => c.userid == uid)).length) :
    ∃ msg, deleteUserService uid db = .error (.conflictErr msg) := by
  obtain ⟨u, hu⟩ := Option.isSome_iff_exists.mp hex
  unfold deleteUserService
  rw [hu]
  by_cases hp : 0 < (db.projects.filter (fun p => p.createdby == some uid)).length
  · exact ⟨"Cannot delete user who has created projects", by simp [hp]⟩
  · by_cases hb : 0 < (db.bugs.filter (fun b => b.assignedto == some uid)).length
    · exact ⟨"Cannot delete user who is assigned to bugs", by simp [hp, hb]⟩
    · have hc : 0 < (db.comments.filter (fun c => c.userid == uid)).length := by
        rcases hdep with h | h | h
        · exact absurd h hp
        · exact absurd h hb
        · exact h
      exact ⟨"Cannot delete user who has comments", by simp [hp, hb, hc]⟩

/-- C4: deleting an existing user who has a dependent row (a project they
created, a bug assigned to them, or a comment they authored) fails with
Conflict for every value of the `force` flag — the controller's 409 when its
counts catch the dependents, otherwise the service's `AppError(CONFLICT)` —
and the store is never mutated (requests failing the ownership gate are
refused with 403 before the guard, also without mutation). -/
theorem c4_user_delete_dependents_conflict (db : DB) (actor : Actor) (uid : Nat)
    (force : Bool) (h0 : uid ≠ 0)
    (hex : (getUserById db uid).isSome)
    (hdep : 0 < (db.projects.filter (fun p => p.createdby == some uid)).length
          ∨ 0 < (db.bugs.filter (fun b => b.assignedto == some uid)).length
          ∨ 0 < (db.comments.filter (fun c => c.userid == uid)).length) :
    (deleteUserController actor uid { force := force } db).snd = db ∧
    (actor.userId = uid ∨ actor.role = "Admin" →
      ∃ info, (deleteUserController actor uid { force := force } db).fst = .conflict info) := by
  obtain ⟨msg, hsvc⟩ := deleteUserService_conflict_of_dep db uid hex hdep
  have h0' : (uid == 0) = false := by simpa using h0
  unfold deleteUserController
  rw [h0']
  by_cases hA : (actor.userId != uid && actor.role != "Admin") = true
  · refine ⟨by simp [hA], fun hauth => absurd hauth ?_⟩
    rcases (Bool.and_eq_true _ _).mp hA with ⟨ha1, ha2⟩
    push_neg
    exact ⟨bne_iff_ne.mp ha1, bne_iff_ne.mp ha2⟩
  · by_cases hg : ((getProjectCountByUser db uid > 0 || getBugCountByUser db uid > 0)
        && !force) = true
    · exact ⟨by simp [hA, hg], fun _ =>
        ⟨[getProjectCountByUser db uid, getBugCountByUser db uid], by simp [hA, hg]⟩⟩
    · exact ⟨by simp [hA, hg, hsvc], fun _ => ⟨[], by simp [hA, hg, hsvc]⟩⟩

/-- A user who authored two comments (and owns nothing else). -/
def dbC4 : DB :=
  { users := [{ userid := 3, username := "carol", email := "c@x.co"
                passwordhash := "h3", role := "User" }]
    projects := []
    bugs := []
    comments :=
      [{ commentid := 1, bugid := 1, userid := 3, commenttext := "first" },
       { commentid := 2, bugid := 1, userid := 3, commenttext := "second" }] }

/-- The user from `dbC4` deleting their own account. -/
def actorC4 : Actor := { userId := 3, role := "User" }

/-- Witness for C4: user 3 authored 2 comments; their own forced delete
request still ends in Conflict and the store is unchanged. -/
theorem c4_witness :
    (deleteUserController actorC4 3 { force := true } dbC4).snd = dbC4 ∧
    (actorC4.userId = 3 ∨ actorC4.role = "Admin" →
      ∃ info, (deleteUserController actorC4 3 { force := true } dbC4).fst = .conflict info) :=
  c4_user_delete_dependents_conflict dbC4 actorC4 3 true (by decide) (by decide)
    (Or.inr (Or.inr (by decide)))

/-- A non-admin user on file. -/
def userC5 : UserRec :=
  { userid := 2, username := "bob", email := "b@x.co", passwordhash := "h2", role := "User" }

/-- A store holding only `userC5`. -/
def dbC5 : DB := { emptyDB with users := [userC5] }

/-- C5 counterexample: the claim quantifies over every string `r`, but for
`r = ""` the profile update does not succeed and does not store `""` — the
repository's truthiness check drops the empty role from the SET clause,
leaving it empty, so the update raises `No fields to update` (mapped to 500)
and the store is unchanged. -/
theorem c5_empty_role_string_fails :
    updateUserProfileController 2 { role := some "" } dbC5 =
      (.serverError "No fields to update", dbC5) ∧
    getUserById dbC5 2 = some userC5 ∧ userC5.role = "User" := by decide

/-- C5 (amended to nonempty `r`): any authenticated user's profile update
carrying `Role = r` succeeds and stores `r` as their role — the role is
accepted from the request body with no authorization check and no restriction
on its (nonempty) value, so a non-admin can set their own role to
`"Admin"`. -/
theorem c5_role_update_unrestricted (db : DB) (u : UserRec) (r : String)
    (h0 : u.userid ≠ 0) (hr : r ≠ "")
    (hu : getUserById db u.userid = some u) :
    updateUserProfileController u.userid { role := some r } db =
      (.ok { userid := u.userid, username := u.username, email := u.email, role := r },
       { db with users := db.users.map (fun q =>
           if q.userid == u.userid then { u with role := r } else q) }) := by
  have h0' : (u.userid == 0) = false := by simpa using h0
  have hr' : (r != "") = true := by simpa using hr
  unfold updateUserProfileController updateUserProfileService repoUpdateUser
  simp [h0', hu, truthyS, hr', toPublic]

/-- Witness for C5: user 2 (role "User") sets their own role to "Admin". -/
theorem c5_witness :
    updateUserProfileController userC5.userid { role := some "Admin" } dbC5 =
      (.ok { userid := userC5.userid, username := userC5.username,
             email := userC5.email, role := "Admin" },
       { dbC5 with users := dbC5.users.map (fun q =>
           if q.userid == userC5.userid then { userC5 with role := "Admin" } else q) }) :=
  c5_role_update_unrestricted dbC5 userC5 "Admin" (by decide) (by decide) (by rfl)

/-- A user on file for the C6 witness. -/
def userC6 : UserRec :=
  { userid := 1, username := "dora", email := "d@x.co", passwordhash := "secret-hash"
    role := "User" }

/-- A store holding only `userC6`. -/
def dbC6 : DB := { emptyDB with users := [userC6] }

/-- C6: the user-list service returns the repository rows exactly as stored
— including the `passwordhash` column of every user — whereas the profile
path strips the hash (`toPublic`) from the very same row; no stripping is
applied to the list operation. -/
theorem c6_getAllUsers_exposes_password_hashes (db : DB) :
    getAllUsersService db = db.users ∧
    (∀ uid u, getUserById db uid = some u →
      getUserProfileService uid db = .ok (toPublic u)) := by
  refine ⟨rfl, fun uid u h => ?_⟩
  simp [getUserProfileService, h]

/-- Witness for C6: the list returned for `dbC6` carries the stored hash,
while the profile endpoint returns the same user stripped. -/
theorem c6_witness :
    getAllUsersService dbC6 = dbC6.users ∧
    getUserProfileService 1 dbC6 = .ok (toPublic userC6) :=
  ⟨(c6_getAllUsers_exposes_password_hashes dbC6).1,
   (c6_getAllUsers_exposes_password_hashes dbC6).2 1 userC6 (by rfl)⟩

/-- A bug-create payload carrying status and priority values outside the
closed enumerations. -/
def bodyC7 : CreateBugBody :=
  { Title := some "T", ProjectID := some 1
    Status := some "Bogus", Priority := some "Whatever" }

/-- A store holding the target project of `bodyC7`. -/
def dbC7 : DB := { emptyDB with projects := [projC1] }

/-- The row `bodyC7` produces. -/
def bugRowC7 : BugRec :=
  { bugid := 1, title := "T", description := none, status := "Bogus"
    priority := "Whatever", projectid := 1, reportedby := none, assignedto := none }

/-- A stored bug reported by user 5, for the update half of C7. -/
def bugC7b : BugRec :=
  { bugid := 1, title := "B", description := none, status := "Open"
    priority := "Medium", projectid := 1, reportedby := some 5, assignedto := none }

/-- A store holding `bugC7b`. -/
def dbC7b : DB := { emptyDB with projects := [projC1], bugs := [bugC7b] }

/-- C7 counterexample: the bug validators cited by the claim perform no
membership check against the closed enumerations — a create payload with
`Status = "Bogus"` and `Priority = "Whatever"` passes validation and the
row is stored with those values, and an update with `Status = "Bogus"`
passes validation and is stored as well. -/
theorem c7_enum_not_enforced :
    validStatuses.contains "Bogus" = false ∧
    validPriorities.contains "Whatever" = false ∧
    createBugService bodyC7 dbC7 = .ok (bugRowC7, { dbC7 with bugs := [bugRowC7] }) ∧
    validateUpdateBugData { Status := some "Bogus" } = .ok { Status := some "Bogus" } ∧
    (updateBugController { userId := 5, role := "User" } 1
        { Status := some "Bogus" } dbC7b).fst = .ok (some { bugC7b with status := "Bogus" }) :=
  ⟨by decide, by decide, by rfl, by rfl, by rfl⟩

/-- C7 (amended): the cited validators accept any string for Status and
Priority — create applies the defaults `Status || 'Open'` and
`Priority || 'Medium'` and otherwise passes the provided value through
verbatim, and update copies the provided value verbatim; membership in the
closed sets is not enforced at validation. -/
theorem c7_status_priority_passthrough :
    (∀ (data : CreateBugBody) (r : CreateBugParsed),
      validateCreateBugData data = .ok r →
        r.Status = jsOrS data.Status "Open" ∧ r.Priority = jsOrS data.Priority "Medium") ∧
    (∀ (data : UpdateBugBody) (d : UpdateBugParsed),
      validateUpdateBugData data = .ok d →
        d.Status = data.Status ∧ d.Priority = data.Priority) := by
  constructor
  · intro data r h
    unfold validateCreateBugData at h
    split_ifs at h
    rw [Except.ok.injEq] at h
    subst h
    exact ⟨rfl, rfl⟩
  · intro data d h
    unfold validateUpdateBugData at h
    split_ifs at h
    rw [Except.ok.injEq] at h
    subst h
    exact ⟨rfl, rfl⟩

/-- The parsed form of `bodyC7`. -/
def parsedC7 : CreateBugParsed :=
  { Title := "T", Description := none, Status := "Bogus", Priority := "Whatever"
    ProjectID := 1, ReportedBy := none, AssignedTo := none }

/-- Witness for C7: evaluating both validators on the concrete payloads. -/
theorem c7_witness :
    (parsedC7.Status = jsOrS bodyC7.Status "Open" ∧
     parsedC7.Priority = jsOrS bodyC7.Priority "Medium") ∧
    ((({ Status := some "Bogus" } : UpdateBugParsed).Status
        = ({ Status := some "Bogus" } : UpdateBugBody).Status) ∧
     (({ Status := some "Bogus" } : UpdateBugParsed).Priority
        = ({ Status := some "Bogus" } : UpdateBugBody).Priority)) :=
  ⟨c7_status_priority_passthrough.1 bodyC7 parsedC7 (by rfl),
   c7_status_priority_passthrough.2 { Status := some "Bogus" } { Status := some "Bogus" }
     (by rfl)⟩

/-- A store holding one comment. -/
def dbC8 : DB :=
  { emptyDB with
    comments := [{ commentid := 1, bugid := 1, userid := 3, commenttext := "old" }] }

/-- C8 counterexample: for the Comment entity, an update payload containing
only unrecognised keys does not fail with the no-fields-provided error —
it passes the update validator (which reads only `commenttext`) and the
operation then fails in the repository with a different error,
`Comment text is required for update`. -/
theorem c8_comment_unrecognized_keys_not_nofields :
    validateAndParseUpdateCommentData [("foo", "1")] = .ok { } ∧
    updateCommentService 1 [("foo", "1")] dbC8 =
      (.error "Comment text is required for update", dbC8) ∧
    (updateCommentService 1 [("foo", "1")] dbC8).fst ≠ .error "No update data provided" := by
  refine ⟨by rfl, by rfl, fun h => ?_⟩
  have h2 : (Except.error "Comment text is required for update"
      : Except String (Option CommentRec)) = .error "No update data provided" := h
  exact absurd (Except.error.inj h2) (by decide)

/-- C8 (amended): updates with no recognised fields are refused without any
entity being modified, but the error differs by entity: the Project, Bug
and User validators fail with `No valid fields to update`, while the
Comment service fails with `No update data provided` only for an empty
payload — a nonempty payload of unrecognised keys passes its validator and
fails in the repository with `Comment text is required for update`. -/
theorem c8_update_no_recognized_fields :
    (∀ b : UpdateProjectBody, b.ProjectName = none → b.Description = none →
      validateUpdateProjectData b = .error "No valid fields to update") ∧
    (∀ b : UpdateBugBody, b.Title = none → b.Description = none → b.Status = none →
      b.Priority = none → b.AssignedTo = none →
      validateUpdateBugData b = .error "No valid fields to update") ∧
    (∀ (uid : Nat) (db : DB), uid ≠ 0 → (getUserById db uid).isSome →
      updateUserProfileController uid { } db = (.serverError "No valid fields to update", db)) ∧
    (∀ (cid : Nat) (db : DB) (body : List (String × String)),
      (∀ kv ∈ body, kv.fst ≠ "commenttext") →
      updateCommentService cid body db =
        ((if body.isEmpty then .error "No update data provided"
          else .error "Comment text is required for update"), db)) := by
  refine ⟨?_, ?_, ?_, ?_⟩
  · intro b h1 h2
    simp [validateUpdateProjectData, h1, h2]
  · intro b h1 h2 h3 h4 h5
    simp [validateUpdateBugData, h1, h2, h3, h4, h5]
  · intro uid db h0 hex
    obtain ⟨u, hu⟩ := Option.isSome_iff_exists.mp hex
    have h0' : (uid == 0) = false := by simpa using h0
    unfold updateUserProfileController updateUserProfileService
    simp [h0', hu]
  · intro cid db body hk
    have hlk : lookupKey body "commenttext" = none := by
      unfold lookupKey
      rw [List.find?_eq_none.mpr]
      · rfl
      · intro kv hkv
        simpa using hk kv hkv
    cases body with
    | nil => rfl
    | cons x xs =>
      unfold updateCommentService validateAndParseUpdateCommentData repoUpdateComment
      rw [hlk]
      rfl

/-- Witness for C8: the four entity update paths evaluated on concrete
payloads with no recognised fields. -/
theorem c8_witness :
    validateUpdateProjectData { } = .error "No valid fields to update" ∧
    validateUpdateBugData { } = .error "No valid fields to update" ∧
    updateUserProfileController 2 { } dbC5 = (.serverError "No valid fields to update", dbC5) ∧
    updateCommentService 7 [("unrecognised", "x")] dbC8 =
      (.error "Comment text is required for update", dbC8) :=
  ⟨c8_update_no_recognized_fields.1 { } rfl rfl,
   c8_update_no_recognized_fields.2.1 { } rfl rfl rfl rfl rfl,
   c8_update_no_recognized_fields.2.2.1 2 dbC5 (by decide) (by rfl),
   c8_update_no_recognized_fields.2.2.2 7 dbC8 [("unrecognised", "x")] (by decide)⟩

/-- An unexpired, well-formed token for user 5. -/
def tokC9 : SessionToken :=
  { claims := { userId := 5, email := "eve@x.co", role := "User" }, exp := 1000 }

/-- C9 counterexample: expiry is not the only way a token stops being
accepted — the middleware re-checks that the token's user still exists, so
a well-formed, unexpired token is rejected (401 "User no longer exists")
once its user row is gone. -/
theorem c9_unexpired_token_rejected_when_user_gone :
    (0 : Nat) < tokC9.exp ∧
    getUserById emptyDB tokC9.claims.userId = none ∧
    authenticateToken 0 (some tokC9) emptyDB = .userGone := by decide

/-- C9 (amended): verification of a well-formed token succeeds iff the
token is unexpired and the user it references still exists in the store,
and then always resolves the same actor — the token's claims; user
deletion is thus a second termination path besides expiry, and no other
revocation mechanism exists. -/
theorem c9_token_acceptance (now : Nat) (t : SessionToken) (db : DB) :
    (t.exp ≤ now → authenticateToken now (some t) db = .expired) ∧
    (now < t.exp → (getUserById db t.claims.userId).isSome →
      authenticateToken now (some t) db =
        .ok { userId := t.claims.userId, email := t.claims.email, role := t.claims.role }) ∧
    (now < t.exp → getUserById db t.claims.userId = none →
      authenticateToken now (some t) db = .userGone) := by
  refine ⟨fun hexp => ?_, fun hlt hex => ?_, fun hlt hnone => ?_⟩
  · simp [authenticateToken, hexp]
  · obtain ⟨u, hu⟩ := Option.isSome_iff_exists.mp hex
    simp [authenticateToken, Nat.not_le.mpr hlt, hu]
  · simp [authenticateToken, Nat.not_le.mpr hlt, hnone]

/-- A token for the stored user `userC6`. -/
def tokC9w : SessionToken :=
  { claims := { userId := 1, email := "d@x.co", role := "User" }, exp := 500 }

/-- Witness for C9: the same token is accepted (resolving its claims) while
its user exists and it is unexpired, and rejected as expired later. -/
theorem c9_witness :
    authenticateToken 100 (some tokC9w) dbC6 =
      .ok { userId := 1, email := "d@x.co", role := "User" } ∧
    authenticateToken 700 (some tokC9w) dbC6 = .expired :=
  ⟨(c9_token_acceptance 100 tokC9w dbC6).2.1 (by decide) (by rfl),
   (c9_token_acceptance 700 tokC9w dbC6).1 (by decide)⟩

/-- Registration success characterized: with valid credentials and a free
email, `createUser` inserts `mkRow db nu` and returns it stripped. -/
theorem createUserService_ok (hp : HashPrimitive) (body : RegisterBody) (db : DB)
    (nu : CreateUserData)
    (hval : validateAndParseCredentials hp body = .ok nu)
    (hfree : getUserByEmail db nu.Email = none) :
    createUserService hp body db =
      .ok (toPublic (mkRow db nu), { db with users := db.users ++ [mkRow db nu] }) := by
  simp only [createUserService, hval, hfree]

/-- Login success characterized: truthy inputs, a matching user row, and a
successful hash comparison produce the token and the stripped user. -/
theorem loginUserService_ok (hp : HashPrimitive) (now : Nat) (em pw : String)
    (db : DB) (u : UserRec) (hem : em ≠ "") (hpw : pw ≠ "")
    (hfind : getUserByEmail db (trimStr (lowerStr em)) = some u)
    (hcmp : hp.compare pw u.passwordhash = true) :
    loginUserService hp now (some em) (some pw) db =
      .ok ({ claims := { userId := u.userid, email := u.email, role := u.role },
             exp := now + 86400 }, toPublic u) := by
  unfold loginUserService
  simp [truthyS, hem, hpw, hfind, hcmp]

/-- Login failure on a missing user: the generic error. -/
theorem loginUserService_no_user (hp : HashPrimitive) (now : Nat) (em pw : String)
    (db : DB) (hem : em ≠ "") (hpw : pw ≠ "")
    (hfind : getUserByEmail db (trimStr (lowerStr em)) = none) :
    loginUserService hp now (some em) (some pw) db = .error "Invalid email or password" := by
  unfold loginUserService
  simp [truthyS, hem, hpw, hfind]

/-- Login failure on a wrong password: the same generic error. -/
theorem loginUserService_bad_pw (hp : HashPrimitive) (now : Nat) (em pw : String)
    (db : DB) (u : UserRec) (hem : em ≠ "") (hpw : pw ≠ "")
    (hfind : getUserByEmail db (trimStr (lowerStr em)) = some u)
    (hcmp : hp.compare pw u.passwordhash = false) :
    loginUserService hp now (some em) (some pw) db = .error "Invalid email or password" := by
  unfold loginUserService
  simp [truthyS, hem, hpw, hfind, hcmp]

/-- Inversion of the credential validator: a successful parse means all
three credentials were provided and nonempty, and records the normalised
email and the hash relation. -/
theorem validateAndParseCredentials_inv (hp : HashPrimitive) (body : RegisterBody)
    (nu : CreateUserData)
    (hval : validateAndParseCredentials hp body = .ok nu) :
    ∃ em, body.email = some em ∧ em ≠ "" ∧ nu.Email = lowerStr (trimStr em) ∧
      ∀ p, body.password = some p → p ≠ "" ∧ nu.PasswordHash = hp.hash p := by
  obtain ⟨bu, be, bp, br⟩ := body
  cases bu with
  | none => cases be <;> cases bp <;> simp [validateAndParseCredentials] at hval
  | some un =>
    cases be with
    | none => cases bp <;> simp [validateAndParseCredentials] at hval
    | some em =>
      cases bp with
      | none => simp [validateAndParseCredentials] at hval
      | some pw =>
        unfold validateAndParseCredentials at hval
        dsimp only at hval
        by_cases h1 : (un == "" || em == "" || pw == "") = true
        · rw [if_pos h1] at hval
          exact absurd hval (by simp)
        rw [if_neg h1] at hval
        by_cases h2 : (!emailTest (lowerStr (trimStr em))) = true
        · rw [if_pos h2] at hval
          exact absurd hval (by simp)
        rw [if_neg h2] at hval
        by_cases h3 : pw.length < 8
        · rw [if_pos h3] at hval
          exact absurd hval (by simp)
        rw [if_neg h3] at hval
        rw [Except.ok.injEq] at hval
        subst hval
        simp only [Bool.or_eq_true, not_or, beq_iff_eq] at h1
        refine ⟨em, rfl, h1.1.2, rfl, fun p hp' => ?_⟩
        cases Option.some.inj hp'
        exact ⟨h1.2, rfl⟩

/-- C10 (amended to a nonempty wrong password): registering with plaintext
password `p` and then authenticating with the same raw email and `p`
succeeds; authenticating with any nonempty `q ≠ p` fails with the generic
`Invalid email or password`, identical to the failure when no user with the
email exists. -/
theorem c10_register_login_roundtrip (hp : HashPrimitive) (body : RegisterBody)
    (db : DB) (now : Nat) (p : String) (nu : CreateUserData)
    (hpw : body.password = some p)
    (hval : validateAndParseCredentials hp body = .ok nu)
    (hfree : getUserByEmail db nu.Email = none) :
    ∃ (pub : PublicUser) (db' : DB),
      createUserService hp body db = .ok (pub, db') ∧
      (∃ tok pu, loginUserService hp now body.email (some p) db' = .ok (tok, pu) ∧
        pu = pub) ∧
      (∀ q, q ≠ p → q ≠ "" →
        loginUserService hp now body.email (some q) db' =
          .error "Invalid email or password") ∧
      (∀ (e : Option String) (q : String), truthyS e = true → q ≠ "" →
        getUserByEmail db' (trimStr (lowerStr (e.getD ""))) = none →
        loginUserService hp now e (some q) db' =
          .error "Invalid email or password") := by
  obtain ⟨em, hbe, hem, hnuE, hpfact⟩ := validateAndParseCredentials_inv hp body nu hval
  obtain ⟨hpne, hnuP⟩ := hpfact p hpw
  have hfree' : db.users.find? (fun u => u.email == nu.Email) = none := hfree
  have hlook : getUserByEmail { db with users := db.users ++ [mkRow db nu] }
      (trimStr (lowerStr em)) = some (mkRow db nu) := by
    show (db.users ++ [mkRow db nu]).find? (fun u => u.email == trimStr (lowerStr em))
      = some (mkRow db nu)
    rw [lowerStr_trimStr_comm em, ← hnuE, List.find?_append, hfree']
    simp [List.find?, mkRow]
  refine ⟨toPublic (mkRow db nu), { db with users := db.users ++ [mkRow db nu] },
    createUserService_ok hp body db nu hval hfree, ?_, ?_, ?_⟩
  · rw [hbe]
    refine ⟨_, _, loginUserService_ok hp now em p _ (mkRow db nu) hem hpne hlook ?_, rfl⟩
    show hp.compare p nu.PasswordHash = true
    rw [hnuP]
    exact hp.compare_hash_self p
  · intro q hq hq0
    rw [hbe]
    refine loginUserService_bad_pw hp now em q _ (mkRow db nu) hem hq0 hlook ?_
    show hp.compare q nu.PasswordHash = false
    rw [hnuP]
    exact hp.compare_hash_of_ne p q hq
  · intro e q het hq0 hnone
    cases e with
    | none => simp [truthyS] at het
    | some es =>
      have hes : es ≠ "" := by simpa [truthyS] using het
      exact loginUserService_no_user hp now es q _ hes hq0 hnone

/-- A concrete registration payload. -/
def bodyC10 : RegisterBody :=
  { username := some "alice", email := some "A@x.co", password := some "password1" }

/-- The parsed credentials `bodyC10` yields under `idHash`. -/
def nuC10 : CreateUserData :=
  { Username := "alice", Email := "a@x.co", PasswordHash := "password1", Role := "User" }

/-- The stored row after registering `bodyC10` into an empty store. -/
def rowC10 : UserRec :=
  { userid := 1, username := "alice", email := "a@x.co"
    passwordhash := "password1", role := "User" }

/-- The store after that registration. -/
def dbC10 : DB := { emptyDB with users := [rowC10] }

/-- C10 counterexample: the claim quantifies over every password `q ≠ p`,
but for the empty password `q = ""` the login fails with
`Email and password are required` — a different error than the generic
`Invalid email or password` the claim requires. -/
theorem c10_empty_password_distinct_error :
    createUserService idHash bodyC10 emptyDB = .ok (toPublic rowC10, dbC10) ∧
    ("" : String) ≠ "password1" ∧
    loginUserService idHash 0 bodyC10.email (some "") dbC10 =
      .error "Email and password are required" ∧
    loginUserService idHash 0 bodyC10.email (some "") dbC10 ≠
      .error "Invalid email or password" := by
  refine ⟨by rfl, by decide, by rfl, fun h => ?_⟩
  have h2 : (Except.error "Email and password are required"
      : Except String (SessionToken × PublicUser)) = .error "Invalid email or password" := h
  exact absurd (Except.error.inj h2) (by decide)

/-- Witness for C10: the round trip evaluated on `bodyC10` over an empty
store with the identity hashing primitive. -/
theorem c10_witness :
    ∃ (pub : PublicUser) (db' : DB),
      createUserService idHash bodyC10 emptyDB = .ok (pub, db') ∧
      (∃ tok pu, loginUserService idHash 7 bodyC10.email (some "password1") db' =
        .ok (tok, pu) ∧ pu = pub) ∧
      (∀ q, q ≠ "password1" → q ≠ "" →
        loginUserService idHash 7 bodyC10.email (some q) db' =
          .error "Invalid email or password") ∧
      (∀ (e : Option String) (q : String), truthyS e = true → q ≠ "" →
        getUserByEmail db' (trimStr (lowerStr (e.getD ""))) = none →
        loginUserService idHash 7 e (some q) db' =
          .error "Invalid email or password") :=
  c10_register_login_roundtrip idHash bodyC10 emptyDB 7 "password1" nuC10
    (by rfl) (by rfl) (by rfl)

end BugTracker
